import Mathlib

/-!
Verification of the consumer binding `pulsar-client-cpp/python/src/consumer.cc`
and of the message-consumption and acknowledgment core it exposes.

The binding layer (the wrapper functions and the export table) is embedded
directly from `consumer.cc`.  The underlying native client (delivery queue,
acknowledgment tracker, consumer state machine) is not part of the visible
source; those components are modelled from the specification, each such
definition carrying a doc comment starting with `Modelled from the spec:`.
-/

/-- Native result codes returned by the client library.  The spec names the
error kinds ConsumerNotReady, ConsumerClosed, Timeout, InvalidMessageId,
AlreadyClosed, QueueClosed and TransportFailure, next to the success code. -/
inductive Result where
  | ResultOk
  | ResultTimeout
  | ResultConsumerNotReady
  | ResultConsumerClosed
  | ResultInvalidMessageId
  | ResultAlreadyClosed
  | ResultQueueClosed
  | ResultTransportFailure
  deriving DecidableEq, Repr

/-- Modelled from the spec: the `CHECK_RESULT` macro from `utils.h` (the header
is not in the visible source).  The spec says the binding "translates a native
result code into an exception": a non-Ok code becomes a raised typed error,
Ok lets the wrapper return normally. -/
def CHECK_RESULT (res : Result) : Except Result Unit :=
  if res = Result.ResultOk then Except.ok () else Except.error res

/-- A message identifier.  The spec describes it as an opaque, totally ordered,
immutable identifier; it is embedded as a natural number carrying that order. -/
abbrev MessageId : Type := Nat

/-- A delivered message: owns a MessageId and a byte payload (the property
mapping is irrelevant to the claims and omitted). -/
structure Message where
  msgId : MessageId
  payload : List Nat
  deriving DecidableEq, Repr

/-- The native `Consumer` object as seen by the binding layer: each field is
the result code (and out-parameter, where applicable) produced by the
corresponding native call that the wrapper in `consumer.cc` invokes. -/
structure NativeConsumer where
  unsubscribe : Result
  receive : Result × Message
  receiveTimeout : Int → Result × Message
  acknowledgeMsg : Message → Result
  acknowledgeMsgId : MessageId → Result
  acknowledgeCumulativeMsg : Message → Result
  acknowledgeCumulativeMsgId : MessageId → Result
  close : Result
  pauseMessageListener : Result
  resumeMessageListener : Result

/-- Embeds `Consumer_unsubscribe`: runs the native call, then `CHECK_RESULT`. -/
def Consumer_unsubscribe (consumer : NativeConsumer) : Except Result Unit :=
  CHECK_RESULT consumer.unsubscribe

/-- Embeds `Consumer_receive`: runs the native call with an out-parameter
message, checks the result, and returns the message on success. -/
def Consumer_receive (consumer : NativeConsumer) : Except Result Message :=
  match CHECK_RESULT consumer.receive.1 with
  | Except.ok _ => Except.ok consumer.receive.2
  | Except.error e => Except.error e

/-- Embeds `Consumer_receive_timeout`: like `Consumer_receive` with a
timeout argument forwarded to the native call. -/
def Consumer_receive_timeout (consumer : NativeConsumer) (timeoutMs : Int) :
    Except Result Message :=
  match CHECK_RESULT (consumer.receiveTimeout timeoutMs).1 with
  | Except.ok _ => Except.ok (consumer.receiveTimeout timeoutMs).2
  | Except.error e => Except.error e

/-- Embeds `Consumer_acknowledge` (by Message). -/
def Consumer_acknowledge (consumer : NativeConsumer) (msg : Message) :
    Except Result Unit :=
  CHECK_RESULT (consumer.acknowledgeMsg msg)

/-- Embeds `Consumer_acknowledge_message_id`. -/
def Consumer_acknowledge_message_id (consumer : NativeConsumer)
    (msgId : MessageId) : Except Result Unit :=
  CHECK_RESULT (consumer.acknowledgeMsgId msgId)

/-- Embeds `Consumer_acknowledge_cumulative` (by Message). -/
def Consumer_acknowledge_cumulative (consumer : NativeConsumer)
    (msg : Message) : Except Result Unit :=
  CHECK_RESULT (consumer.acknowledgeCumulativeMsg msg)

/-- Embeds `Consumer_acknowledge_cumulative_message_id`. -/
def Consumer_acknowledge_cumulative_message_id (consumer : NativeConsumer)
    (msgId : MessageId) : Except Result Unit :=
  CHECK_RESULT (consumer.acknowledgeCumulativeMsgId msgId)

/-- Embeds `Consumer_close`. -/
def Consumer_close (consumer : NativeConsumer) : Except Result Unit :=
  CHECK_RESULT consumer.close

/-- Embeds `Consumer_pauseMessageListener` (no interpreter-lock release in the
source; the result is still checked). -/
def Consumer_pauseMessageListener (consumer : NativeConsumer) :
    Except Result Unit :=
  CHECK_RESULT consumer.pauseMessageListener

/-- Embeds `Consumer_resumeMessageListener`. -/
def Consumer_resumeMessageListener (consumer : NativeConsumer) :
    Except Result Unit :=
  CHECK_RESULT consumer.resumeMessageListener

/-- How a method exported in `export_consumer` is bound:
a wrapper that releases the interpreter lock around the native call and
checks the result, a wrapper that checks the result without releasing the
lock, a direct binding to the native method, or a pure accessor. -/
inductive WrapperKind where
  | checkedWithGilRelease
  | checkedNoGilRelease
  | directNative
  | pureGetter
  deriving DecidableEq, Repr

/-- Embeds the `export_consumer` table of `consumer.cc` lines 105-123: each
`.def(...)` entry, its exported name and how its wrapper is built. -/
def export_consumer : List (String × WrapperKind) :=
  [("topic", WrapperKind.pureGetter),
   ("subscription_name", WrapperKind.pureGetter),
   ("unsubscribe", WrapperKind.checkedWithGilRelease),
   ("receive", WrapperKind.checkedWithGilRelease),
   ("receive", WrapperKind.checkedWithGilRelease),
   ("acknowledge", WrapperKind.checkedWithGilRelease),
   ("acknowledge", WrapperKind.checkedWithGilRelease),
   ("acknowledge_cumulative", WrapperKind.checkedWithGilRelease),
   ("acknowledge_cumulative", WrapperKind.checkedWithGilRelease),
   ("close", WrapperKind.checkedWithGilRelease),
   ("pause_message_listener", WrapperKind.checkedNoGilRelease),
   ("resume_message_listener", WrapperKind.checkedNoGilRelease),
   ("redeliver_unacknowledged_messages", WrapperKind.directNative)]

/-- A wrapper kind translates native result codes into raised errors exactly
when it routes the result through `CHECK_RESULT`. -/
def translatesResult : WrapperKind → Bool
  | WrapperKind.checkedWithGilRelease => true
  | WrapperKind.checkedNoGilRelease => true
  | WrapperKind.directNative => false
  | WrapperKind.pureGetter => false

/-- A wrapper kind releases the interpreter lock around the native call
exactly when its wrapper contains the allow-threads block. -/
def releasesInterpreterLock : WrapperKind → Bool
  | WrapperKind.checkedWithGilRelease => true
  | WrapperKind.checkedNoGilRelease => false
  | WrapperKind.directNative => false
  | WrapperKind.pureGetter => false

/-- An exported entry is a consumer operation (as opposed to a pure accessor
such as `topic` or `subscription_name`). -/
def isOperation (k : WrapperKind) : Bool :=
  k ≠ WrapperKind.pureGetter

/-- Modelled from the spec: the Acknowledgment Tracker state (the tracker
lives in the native client, not in the visible source).  It records the ids
delivered to this consumer, the pending individual-ack entries, and the
cumulative watermark: the highest id such that all ids at or below it are
considered acknowledged. -/
structure AckTracker where
  delivered : List MessageId
  individualAcks : List MessageId
  watermark : Option MessageId
  deriving DecidableEq, Repr

/-- Modelled from the spec: the ack-state query.  An id reports acknowledged
when it has a recorded individual ack or lies at or below the cumulative
watermark; otherwise it is pending. -/
def AckTracker.isAcked (t : AckTracker) (x : MessageId) : Bool :=
  decide (x ∈ t.individualAcks) ||
    (match t.watermark with
     | some w => decide (x ≤ w)
     | none => false)

/-- Modelled from the spec: `acknowledge(MessageId)` marks a single id
acknowledged; re-acknowledging an already-acknowledged id is a no-op that
succeeds, never an error. -/
def AckTracker.acknowledge (t : AckTracker) (x : MessageId) :
    Result × AckTracker :=
  if t.isAcked x then (Result.ResultOk, t)
  else (Result.ResultOk, { t with individualAcks := x :: t.individualAcks })

/-- Modelled from the spec: `acknowledgeCumulative(MessageId)` marks every id
at or below the given id acknowledged by raising the watermark, and clears
the finer-grained pending individual entries up to that point; it fails with
`InvalidMessageId` if the id was never delivered to this consumer. -/
def AckTracker.acknowledgeCumulative (t : AckTracker) (x : MessageId) :
    Result × AckTracker :=
  if x ∈ t.delivered then
    (Result.ResultOk,
     { t with
        watermark :=
          some (match t.watermark with
                | some w => max w x
                | none => x),
        individualAcks := t.individualAcks.filter (fun y => decide (x < y)) })
  else (Result.ResultInvalidMessageId, t)

/-- Modelled from the spec: recording the delivery of an id to this consumer
(the transport collaborator pushes messages; the tracker observes their ids). -/
def AckTracker.deliver (t : AckTracker) (x : MessageId) : AckTracker :=
  { t with delivered := x :: t.delivered }

/-- The tracker of a freshly created consumer: nothing delivered, nothing
acknowledged. -/
def AckTracker.empty : AckTracker :=
  { delivered := [], individualAcks := [], watermark := none }

/-- Flow-control signals the Delivery Queue emits to the transport
collaborator: backpressure when the buffer reaches capacity, and a credit
request when a receive frees room and the queue is not paused. -/
inductive Signal where
  | backpressure
  | creditRequest
  deriving DecidableEq, Repr

/-- Modelled from the spec: the Delivery Queue, a bounded flow-controlled
buffer of messages pending consumption, with a paused flag gating
flow-control signalling and a closed flag set by close/unsubscribe. -/
structure DeliveryQueue where
  capacity : Nat
  buffer : List Message
  paused : Bool
  closed : Bool
  deriving DecidableEq, Repr

/-- Outcome of a push into the Delivery Queue: the message was buffered, or
it was refused because the buffer is at capacity (the transport is expected
to honour backpressure), or the queue was closed (`QueueClosed`). -/
inductive PushOutcome where
  | accepted
  | refusedFull
  | queueClosed
  deriving DecidableEq, Repr

/-- Modelled from the spec: `push(Message)`, called by the transport when a
message is decoded.  It fails with `QueueClosed` if the consumer is closed,
buffers the message when room remains (also while paused), refuses the
message when the buffer is at capacity, and emits a backpressure signal on
the push that fills the buffer to capacity. -/
def DeliveryQueue.push (q : DeliveryQueue) (m : Message) :
    PushOutcome × DeliveryQueue × List Signal :=
  if q.closed then (PushOutcome.queueClosed, q, [])
  else if q.buffer.length < q.capacity then
    let buf := q.buffer ++ [m]
    (PushOutcome.accepted, { q with buffer := buf },
     if buf.length = q.capacity then [Signal.backpressure] else [])
  else (PushOutcome.refusedFull, q, [Signal.backpressure])

/-- Outcome of a timed receive: a message, a punctual timeout, or the
consumer-closed error when the queue was closed while waiting. -/
inductive ReceiveOutcome where
  | msg (m : Message)
  | timeout
  | closedErr
  deriving DecidableEq, Repr

/-- Modelled from the spec: `receive(timeout)` observed at the moment the
configured duration has elapsed.  A closed queue fails with `ConsumerClosed`;
a buffered message (even on a paused queue) is handed out and removed; an
empty buffer yields `Timeout`.  The function is total: every call resolves
to exactly one of the three outcomes. -/
def DeliveryQueue.receiveTimed (q : DeliveryQueue) :
    ReceiveOutcome × DeliveryQueue × List Signal :=
  if q.closed then (ReceiveOutcome.closedErr, q, [])
  else
    match q.buffer with
    | [] => (ReceiveOutcome.timeout, q, [])
    | m :: rest =>
        (ReceiveOutcome.msg m, { q with buffer := rest },
         if q.paused then [] else [Signal.creditRequest])

/-- Modelled from the spec: `pause()` stops future credit/flow-control
requests without touching the buffered items. -/
def DeliveryQueue.pause (q : DeliveryQueue) : DeliveryQueue :=
  { q with paused := true }

/-- Modelled from the spec: `resume()` restores normal flow-control
signalling. -/
def DeliveryQueue.resume (q : DeliveryQueue) : DeliveryQueue :=
  { q with paused := false }

/-- A freshly created queue of the given capacity: empty, running, open. -/
def DeliveryQueue.create (cap : Nat) : DeliveryQueue :=
  { capacity := cap, buffer := [], paused := false, closed := false }

/-- An atomic event on the Delivery Queue of one consumer.  The spec
linearizes queue pushes and receives relative to a single consumer, so a
concurrent history is embedded as the sequence of its linearized events. -/
inductive QueueOp where
  | push (m : Message)
  | receive
  | pause
  | resume
  deriving DecidableEq, Repr

/-- A run of the Delivery Queue: its current state, the messages the
transport successfully pushed (in order), the messages handed out to
receive calls (in order), and the flow-control signals emitted so far. -/
structure QueueRun where
  q : DeliveryQueue
  pushed : List Message
  handedOut : List Message
  signals : List Signal
  deriving DecidableEq, Repr

/-- Modelled from the spec: one linearized event applied to a run.  A push
buffers the message when accepted; a receive hands the oldest buffered
message to exactly the one call that took it; pause and resume toggle
flow-control signalling. -/
def QueueRun.step (r : QueueRun) (op : QueueOp) : QueueRun :=
  match op with
  | QueueOp.push m =>
      let out := r.q.push m
      { q := out.2.1,
        pushed :=
          if out.1 = PushOutcome.accepted then r.pushed ++ [m] else r.pushed,
        handedOut := r.handedOut,
        signals := r.signals ++ out.2.2 }
  | QueueOp.receive =>
      let out := r.q.receiveTimed
      { q := out.2.1,
        pushed := r.pushed,
        handedOut :=
          match out.1 with
          | ReceiveOutcome.msg m => r.handedOut ++ [m]
          | _ => r.handedOut,
        signals := r.signals ++ out.2.2 }
  | QueueOp.pause =>
      { q := r.q.pause, pushed := r.pushed, handedOut := r.handedOut,
        signals := r.signals }
  | QueueOp.resume =>
      { q := r.q.resume, pushed := r.pushed, handedOut := r.handedOut,
        signals := r.signals }

/-- The run starting from a freshly created queue of the given capacity. -/
def QueueRun.init (cap : Nat) : QueueRun :=
  { q := DeliveryQueue.create cap, pushed := [], handedOut := [],
    signals := [] }

/-- Runs a linearized sequence of queue events from the initial run. -/
def runQueue (cap : Nat) (ops : List QueueOp) : QueueRun :=
  ops.foldl QueueRun.step (QueueRun.init cap)

/-- Modelled from the spec: the consumer lifecycle states
Created, Active, Paused, Unsubscribed, Closed. -/
inductive ConsumerState where
  | created
  | active
  | paused
  | unsubscribed
  | closed
  deriving DecidableEq, Repr

/-- A terminal lifecycle state: Unsubscribed or Closed. -/
def ConsumerState.isTerminal : ConsumerState → Bool
  | ConsumerState.unsubscribed => true
  | ConsumerState.closed => true
  | _ => false

/-- The lifecycle operations of the Consumer State Machine. -/
inductive ConsumerOp where
  | subscribeOp
  | receiveOp
  | ackOp
  | pauseOp
  | resumeOp
  | unsubscribeOp
  | closeOp
  | redeliverOp
  deriving DecidableEq, Repr

/-- Modelled from the spec: the Consumer State Machine transitions.
Receive, ack, pause, resume and redeliver are valid in Active or Paused and
fail with `ConsumerNotReady` before subscribe completes and with
`ConsumerClosed` after unsubscribe or close; unsubscribe of an already
terminal consumer fails with `AlreadyClosed`; close always succeeds and is
idempotent (fail-safe for cleanup races); no error is silently dropped and
no failing operation changes the state. -/
def applyOp (s : ConsumerState) : ConsumerOp → Result × ConsumerState
  | ConsumerOp.subscribeOp =>
      match s with
      | ConsumerState.created => (Result.ResultOk, ConsumerState.active)
      | ConsumerState.unsubscribed => (Result.ResultAlreadyClosed, s)
      | ConsumerState.closed => (Result.ResultAlreadyClosed, s)
      | _ => (Result.ResultOk, s)
  | ConsumerOp.receiveOp =>
      match s with
      | ConsumerState.active => (Result.ResultOk, s)
      | ConsumerState.paused => (Result.ResultOk, s)
      | ConsumerState.created => (Result.ResultConsumerNotReady, s)
      | _ => (Result.ResultConsumerClosed, s)
  | ConsumerOp.ackOp =>
      match s with
      | ConsumerState.active => (Result.ResultOk, s)
      | ConsumerState.paused => (Result.ResultOk, s)
      | ConsumerState.created => (Result.ResultConsumerNotReady, s)
      | _ => (Result.ResultConsumerClosed, s)
  | ConsumerOp.pauseOp =>
      match s with
      | ConsumerState.active => (Result.ResultOk, ConsumerState.paused)
      | ConsumerState.paused => (Result.ResultOk, ConsumerState.paused)
      | ConsumerState.created => (Result.ResultConsumerNotReady, s)
      | _ => (Result.ResultConsumerClosed, s)
  | ConsumerOp.resumeOp =>
      match s with
      | ConsumerState.active => (Result.ResultOk, ConsumerState.active)
      | ConsumerState.paused => (Result.ResultOk, ConsumerState.active)
      | ConsumerState.created => (Result.ResultConsumerNotReady, s)
      | _ => (Result.ResultConsumerClosed, s)
  | ConsumerOp.unsubscribeOp =>
      match s with
      | ConsumerState.active => (Result.ResultOk, ConsumerState.unsubscribed)
      | ConsumerState.paused => (Result.ResultOk, ConsumerState.unsubscribed)
      | ConsumerState.created => (Result.ResultConsumerNotReady, s)
      | _ => (Result.ResultAlreadyClosed, s)
  | ConsumerOp.closeOp =>
      match s with
      | ConsumerState.unsubscribed =>
          (Result.ResultOk, ConsumerState.unsubscribed)
      | _ => (Result.ResultOk, ConsumerState.closed)
  | ConsumerOp.redeliverOp =>
      match s with
      | ConsumerState.active => (Result.ResultOk, s)
      | ConsumerState.paused => (Result.ResultOk, s)
      | ConsumerState.created => (Result.ResultConsumerNotReady, s)
      | _ => (Result.ResultConsumerClosed, s)

/-- The state reached after a sequence of lifecycle operations. -/
def runConsumer (s : ConsumerState) (ops : List ConsumerOp) : ConsumerState :=
  ops.foldl (fun t op => (applyOp t op).2) s

/-- Whether a wrapper of the given kind raises a translated typed error to
the caller when the native call it wraps yields the given result code:
exactly the wrappers routing the code through `CHECK_RESULT`, on a non-Ok
code. -/
def wrapperRaises (k : WrapperKind) (res : Result) : Bool :=
  translatesResult k && decide (res ≠ Result.ResultOk)

/-- A native consumer whose every native call fails, used to exercise the
error paths of the binding wrappers on concrete input. -/
def failingNative : NativeConsumer :=
  { unsubscribe := Result.ResultAlreadyClosed,
    receive := (Result.ResultConsumerClosed, { msgId := 0, payload := [] }),
    receiveTimeout := fun _ =>
      (Result.ResultTimeout, { msgId := 0, payload := [] }),
    acknowledgeMsg := fun _ => Result.ResultConsumerClosed,
    acknowledgeMsgId := fun _ => Result.ResultConsumerClosed,
    acknowledgeCumulativeMsg := fun _ => Result.ResultInvalidMessageId,
    acknowledgeCumulativeMsgId := fun _ => Result.ResultInvalidMessageId,
    close := Result.ResultTransportFailure,
    pauseMessageListener := Result.ResultConsumerNotReady,
    resumeMessageListener := Result.ResultConsumerNotReady }

/-- Claim C2: every exported consumer operation surfaces a non-success
native result code synchronously to the caller as a typed failure carrying
that code; no error result is silently discarded. -/
theorem C2_all_errors_surfaced (c : NativeConsumer) :
    (c.unsubscribe ≠ Result.ResultOk →
        Consumer_unsubscribe c = Except.error c.unsubscribe) ∧
    (c.receive.1 ≠ Result.ResultOk →
        Consumer_receive c = Except.error c.receive.1) ∧
    (∀ ms : Int, (c.receiveTimeout ms).1 ≠ Result.ResultOk →
        Consumer_receive_timeout c ms = Except.error (c.receiveTimeout ms).1) ∧
    (∀ m : Message, c.acknowledgeMsg m ≠ Result.ResultOk →
        Consumer_acknowledge c m = Except.error (c.acknowledgeMsg m)) ∧
    (∀ x : MessageId, c.acknowledgeMsgId x ≠ Result.ResultOk →
        Consumer_acknowledge_message_id c x =
          Except.error (c.acknowledgeMsgId x)) ∧
    (∀ m : Message, c.acknowledgeCumulativeMsg m ≠ Result.ResultOk →
        Consumer_acknowledge_cumulative c m =
          Except.error (c.acknowledgeCumulativeMsg m)) ∧
    (∀ x : MessageId, c.acknowledgeCumulativeMsgId x ≠ Result.ResultOk →
        Consumer_acknowledge_cumulative_message_id c x =
          Except.error (c.acknowledgeCumulativeMsgId x)) ∧
    (c.close ≠ Result.ResultOk →
        Consumer_close c = Except.error c.close) ∧
    (c.pauseMessageListener ≠ Result.ResultOk →
        Consumer_pauseMessageListener c =
          Except.error c.pauseMessageListener) ∧
    (c.resumeMessageListener ≠ Result.ResultOk →
        Consumer_resumeMessageListener c =
          Except.error c.resumeMessageListener) := by
  refine ⟨?_, ?_, ?_, ?_, ?_, ?_, ?_, ?_, ?_, ?_⟩
  · intro h
    simp [Consumer_unsubscribe, CHECK_RESULT, h]
  · intro h
    simp [Consumer_receive, CHECK_RESULT, h]
  · intro ms h
    simp [Consumer_receive_timeout, CHECK_RESULT, h]
  · intro m h
    simp [Consumer_acknowledge, CHECK_RESULT, h]
  · intro x h
    simp [Consumer_acknowledge_message_id, CHECK_RESULT, h]
  · intro m h
    simp [Consumer_acknowledge_cumulative, CHECK_RESULT, h]
  · intro x h
    simp [Consumer_acknowledge_cumulative_message_id, CHECK_RESULT, h]
  · intro h
    simp [Consumer_close, CHECK_RESULT, h]
  · intro h
    simp [Consumer_pauseMessageListener, CHECK_RESULT, h]
  · intro h
    simp [Consumer_resumeMessageListener, CHECK_RESULT, h]

/-- Witness for C2: on a native consumer whose calls all fail, each wrapper
raises the corresponding typed error. -/
theorem C2_all_errors_surfaced_witness :
    Consumer_unsubscribe failingNative =
        Except.error Result.ResultAlreadyClosed ∧
    Consumer_receive failingNative =
        Except.error Result.ResultConsumerClosed ∧
    Consumer_receive_timeout failingNative 100 =
        Except.error Result.ResultTimeout ∧
    Consumer_close failingNative =
        Except.error Result.ResultTransportFailure ∧
    Consumer_pauseMessageListener failingNative =
        Except.error Result.ResultConsumerNotReady :=
  ⟨(C2_all_errors_surfaced failingNative).1 (by decide),
   (C2_all_errors_surfaced failingNative).2.1 (by decide),
   (C2_all_errors_surfaced failingNative).2.2.1 100 (by decide),
   (C2_all_errors_surfaced failingNative).2.2.2.2.2.2.2.1 (by decide),
   (C2_all_errors_surfaced failingNative).2.2.2.2.2.2.2.2.1 (by decide)⟩

/-- Claim C10: `redeliver_unacknowledged_messages` is the unique exported
entry bound directly to the native method, with no result-code translation
and no interpreter-lock release, so unlike every other exported consumer
operation it never raises a translated typed error, whatever the native
outcome. -/
theorem C10_redeliver_bound_directly :
    (∀ p ∈ export_consumer,
        (p.2 = WrapperKind.directNative ↔
          p.1 = "redeliver_unacknowledged_messages")) ∧
    (∀ p ∈ export_consumer, p.1 = "redeliver_unacknowledged_messages" →
        translatesResult p.2 = false ∧ releasesInterpreterLock p.2 = false) ∧
    (∀ p ∈ export_consumer, isOperation p.2 = true →
        p.1 ≠ "redeliver_unacknowledged_messages" →
        translatesResult p.2 = true) ∧
    (∀ res : Result, wrapperRaises WrapperKind.directNative res = false) ∧
    (∀ res : Result, res ≠ Result.ResultOk →
        wrapperRaises WrapperKind.checkedWithGilRelease res = true ∧
        wrapperRaises WrapperKind.checkedNoGilRelease res = true) := by
  refine ⟨by decide, by decide, by decide, ?_, ?_⟩
  · intro res
    cases res <;> rfl
  · intro res h
    exact ⟨by simp [wrapperRaises, translatesResult, h],
           by simp [wrapperRaises, translatesResult, h]⟩

/-- Witness for C10: the redeliver entry is in the export table, is bound
directly, translates no result code and releases no lock, while the close
wrapper does raise on a failing code. -/
theorem C10_redeliver_bound_directly_witness :
    (translatesResult WrapperKind.directNative = false ∧
      releasesInterpreterLock WrapperKind.directNative = false) ∧
    wrapperRaises WrapperKind.directNative Result.ResultTransportFailure =
        false ∧
    wrapperRaises WrapperKind.checkedWithGilRelease
        Result.ResultTransportFailure = true :=
  ⟨C10_redeliver_bound_directly.2.1
      ("redeliver_unacknowledged_messages", WrapperKind.directNative)
      (by decide) rfl,
   C10_redeliver_bound_directly.2.2.2.1 Result.ResultTransportFailure,
   (C10_redeliver_bound_directly.2.2.2.2 Result.ResultTransportFailure
      (by decide)).1⟩

/-- Claim C5: close always succeeds, and a second close (in any
linearization order of racing close calls) is a no-op returning success,
never an error. -/
theorem C5_close_idempotent_failsafe (s : ConsumerState) :
    (applyOp s ConsumerOp.closeOp).1 = Result.ResultOk ∧
    applyOp (applyOp s ConsumerOp.closeOp).2 ConsumerOp.closeOp =
      (Result.ResultOk, (applyOp s ConsumerOp.closeOp).2) := by
  cases s <;> exact ⟨rfl, rfl⟩

/-- Claim C6: acknowledging an id that is already acknowledged (individually
or through the cumulative watermark) is a successful no-op that leaves the
tracker unchanged, and an individual ack never returns an error. -/
theorem C6_individual_ack_idempotent (t : AckTracker) (x : MessageId)
    (h : t.isAcked x = true) :
    AckTracker.acknowledge t x = (Result.ResultOk, t) ∧
    (∀ u : AckTracker, ∀ y : MessageId,
        (AckTracker.acknowledge u y).1 = Result.ResultOk) := by
  constructor
  · simp [AckTracker.acknowledge, h]
  · intro u y
    by_cases hc : u.isAcked y = true <;>
      simp [AckTracker.acknowledge, hc]

/-- A tracker with ids 1, 2, 3 delivered, id 2 individually acknowledged and
a cumulative watermark at 1. -/
def ackedTracker : AckTracker :=
  { delivered := [1, 2, 3], individualAcks := [2], watermark := some 1 }

/-- Witness for C6: re-acknowledging id 2 (individually acked) and id 1
(covered by the watermark) are no-ops on a concrete tracker. -/
theorem C6_individual_ack_idempotent_witness :
    ackedTracker.isAcked 2 = true ∧
    AckTracker.acknowledge ackedTracker 2 = (Result.ResultOk, ackedTracker) ∧
    AckTracker.acknowledge ackedTracker 1 = (Result.ResultOk, ackedTracker) :=
  ⟨by decide,
   (C6_individual_ack_idempotent ackedTracker 2 (by decide)).1,
   (C6_individual_ack_idempotent ackedTracker 1 (by decide)).1⟩

/-- Claim C1: cumulative acknowledgment of a delivered id x succeeds, makes
every id at or below x report acknowledged, removes every pending
individual-ack entry at or below x, and leaves the ack state of every id
above x unchanged (so ids above x that were pending remain pending). -/
theorem C1_cumulative_ack_subsumes (t : AckTracker) (x : MessageId)
    (h : x ∈ t.delivered) :
    (t.acknowledgeCumulative x).1 = Result.ResultOk ∧
    (∀ y : MessageId, y ≤ x →
        (t.acknowledgeCumulative x).2.isAcked y = true) ∧
    (∀ y : MessageId, y ≤ x →
        y ∉ (t.acknowledgeCumulative x).2.individualAcks) ∧
    (∀ y : MessageId, x < y →
        (t.acknowledgeCumulative x).2.isAcked y = t.isAcked y) := by
  unfold AckTracker.acknowledgeCumulative
  rw [if_pos h]
  refine ⟨rfl, ?_, ?_, ?_⟩
  · intro y hy
    cases hw : t.watermark with
    | none =>
        simp [AckTracker.isAcked, hw, hy]
    | some w =>
        have hle : y ≤ max w x := le_trans hy (le_max_right w x)
        simp [AckTracker.isAcked, hw, hle]
  · intro y hy
    intro hmem
    rcases List.mem_filter.mp hmem with ⟨_, hdec⟩
    have hxy : x < y := of_decide_eq_true hdec
    exact absurd hxy (not_lt.mpr hy)
  · intro y hxy
    have hfilter :
        (y ∈ t.individualAcks.filter fun z => decide (x < z)) ↔
          y ∈ t.individualAcks := by
      simp [List.mem_filter, hxy]
    cases hw : t.watermark with
    | none =>
        simp [AckTracker.isAcked, hw, hfilter, not_le.mpr hxy]
    | some w =>
        have hmax : y ≤ max w x ↔ y ≤ w := by
          rw [le_max_iff]
          exact or_iff_left (not_le.mpr hxy)
        simp [AckTracker.isAcked, hw, hfilter, hmax]

/-- A tracker that observed ids 1, 2, 3 with id 1 individually acknowledged
and no cumulative watermark yet. -/
def deliveredTracker : AckTracker :=
  { delivered := [1, 2, 3], individualAcks := [1], watermark := none }

/-- Witness for C1: the spec scenario — after cumulative ack of id 2 on a
tracker that saw 1, 2, 3, ids 1 and 2 report acknowledged, the individual
entry for 1 is gone, and id 3 keeps its previous (pending) state. -/
theorem C1_cumulative_ack_subsumes_witness :
    (deliveredTracker.acknowledgeCumulative 2).1 = Result.ResultOk ∧
    (deliveredTracker.acknowledgeCumulative 2).2.isAcked 1 = true ∧
    (deliveredTracker.acknowledgeCumulative 2).2.isAcked 2 = true ∧
    (1 : MessageId) ∉ (deliveredTracker.acknowledgeCumulative 2).2.individualAcks ∧
    (deliveredTracker.acknowledgeCumulative 2).2.isAcked 3 =
        deliveredTracker.isAcked 3 ∧
    deliveredTracker.isAcked 3 = false :=
  ⟨(C1_cumulative_ack_subsumes deliveredTracker 2 (by decide)).1,
   (C1_cumulative_ack_subsumes deliveredTracker 2 (by decide)).2.1 1 (by decide),
   (C1_cumulative_ack_subsumes deliveredTracker 2 (by decide)).2.1 2 (by decide),
   (C1_cumulative_ack_subsumes deliveredTracker 2 (by decide)).2.2.1 1 (by decide),
   (C1_cumulative_ack_subsumes deliveredTracker 2 (by decide)).2.2.2 3 (by decide),
   by decide⟩

/-- Claim C4: a timed receive on a closed queue fails with the
consumer-closed error; on an open queue whose buffer is empty it returns no
message and fails with the timeout error once the duration has elapsed; and
it always resolves to exactly one of message, timeout or closed (it cannot
block indefinitely). -/
theorem C4_timed_receive_resolves (q : DeliveryQueue) :
    (q.closed = true →
        (q.receiveTimed).1 = ReceiveOutcome.closedErr) ∧
    (q.closed = false → q.buffer = [] →
        (q.receiveTimed).1 = ReceiveOutcome.timeout) ∧
    (q.buffer = [] → ∀ m : Message,
        (q.receiveTimed).1 ≠ ReceiveOutcome.msg m) ∧
    ((q.receiveTimed).1 = ReceiveOutcome.closedErr ∨
      (q.receiveTimed).1 = ReceiveOutcome.timeout ∨
      ∃ m : Message, (q.receiveTimed).1 = ReceiveOutcome.msg m) := by
  cases hc : q.closed with
  | true =>
      refine ⟨fun _ => ?_, fun hc2 _ => by simp [hc] at hc2, ?_, ?_⟩
      · simp [DeliveryQueue.receiveTimed, hc]
      · intro _ m
        simp [DeliveryQueue.receiveTimed, hc]
      · exact Or.inl (by simp [DeliveryQueue.receiveTimed, hc])
  | false =>
      cases hb : q.buffer with
      | nil =>
          refine ⟨fun hc2 => by simp [hc] at hc2, fun _ _ => ?_, ?_, ?_⟩
          · simp [DeliveryQueue.receiveTimed, hc, hb]
          · intro _ m
            simp [DeliveryQueue.receiveTimed, hc, hb]
          · exact Or.inr (Or.inl (by simp [DeliveryQueue.receiveTimed, hc, hb]))
      | cons m rest =>
          refine ⟨fun hc2 => by simp [hc] at hc2,
                  fun _ hb2 => by simp [hb] at hb2,
                  fun hb2 => by simp [hb] at hb2, ?_⟩
          exact Or.inr (Or.inr ⟨m, by simp [DeliveryQueue.receiveTimed, hc, hb]⟩)

/-- A closed queue with an empty buffer, as left behind by close. -/
def closedQueue : DeliveryQueue :=
  { capacity := 5, buffer := [], paused := false, closed := true }

/-- Witness for C4: a timed receive on a fresh (open, empty) queue times
out, and on a closed queue reports the consumer-closed error. -/
theorem C4_timed_receive_resolves_witness :
    ((DeliveryQueue.create 5).receiveTimed).1 = ReceiveOutcome.timeout ∧
    (closedQueue.receiveTimed).1 = ReceiveOutcome.closedErr :=
  ⟨(C4_timed_receive_resolves (DeliveryQueue.create 5)).2.1 rfl rfl,
   (C4_timed_receive_resolves closedQueue).1 rfl⟩

/-- Claim C9: on a paused queue, pushes still succeed and buffer messages
while room remains, a receive still hands out an already-buffered message
(emitting no credit request while paused), and resume restores normal
credit signalling. -/
theorem C9_pause_gates_only_flow (q : DeliveryQueue) (m : Message) :
    (q.closed = false → q.buffer.length < q.capacity →
        ((q.pause.push m).1 = PushOutcome.accepted ∧
          (q.pause.push m).2.1.buffer = q.buffer ++ [m])) ∧
    (∀ rest : List Message, q.closed = false → q.buffer = m :: rest →
        ((q.pause.receiveTimed).1 = ReceiveOutcome.msg m ∧
          (q.pause.receiveTimed).2.1.buffer = rest ∧
          (q.pause.receiveTimed).2.2 = [])) ∧
    (∀ rest : List Message, q.closed = false → q.buffer = m :: rest →
        ((q.pause.resume.receiveTimed).1 = ReceiveOutcome.msg m ∧
          (q.pause.resume.receiveTimed).2.2 = [Signal.creditRequest])) ∧
    q.pause.resume.paused = false := by
  refine ⟨?_, ?_, ?_, rfl⟩
  · intro hc hlen
    constructor
    · simp [DeliveryQueue.push, DeliveryQueue.pause, hc, hlen]
    · simp [DeliveryQueue.push, DeliveryQueue.pause, hc, hlen]
  · intro rest hc hb
    refine ⟨?_, ?_, ?_⟩ <;>
      simp [DeliveryQueue.receiveTimed, DeliveryQueue.pause, hc, hb]
  · intro rest hc hb
    constructor <;>
      simp [DeliveryQueue.receiveTimed, DeliveryQueue.pause,
        DeliveryQueue.resume, hc, hb]

/-- An open queue of capacity 3 holding one buffered message. -/
def bufferedQueue : DeliveryQueue :=
  { capacity := 3, buffer := [{ msgId := 4, payload := [7] }],
    paused := false, closed := false }

/-- Witness for C9: the spec scenario on a concrete queue — a push while
paused is buffered, a paused receive returns the buffered message with no
credit request, and after resume the receive emits the credit request. -/
theorem C9_pause_gates_only_flow_witness :
    ((bufferedQueue.pause.push { msgId := 5, payload := [] }).1 =
        PushOutcome.accepted) ∧
    ((bufferedQueue.pause.receiveTimed).1 =
        ReceiveOutcome.msg { msgId := 4, payload := [7] } ∧
      (bufferedQueue.pause.receiveTimed).2.2 = []) ∧
    ((bufferedQueue.pause.resume.receiveTimed).2.2 =
        [Signal.creditRequest]) :=
  ⟨((C9_pause_gates_only_flow bufferedQueue { msgId := 5, payload := [] }).1
      rfl (by decide)).1,
   ⟨((C9_pause_gates_only_flow bufferedQueue
        { msgId := 4, payload := [7] }).2.1 [] rfl rfl).1,
    ((C9_pause_gates_only_flow bufferedQueue
        { msgId := 4, payload := [7] }).2.1 [] rfl rfl).2.2⟩,
   ((C9_pause_gates_only_flow bufferedQueue
        { msgId := 4, payload := [7] }).2.2.1 [] rfl rfl).2⟩

/-- Terminal lifecycle states are absorbing: no single operation leaves
Unsubscribed or Closed. -/
theorem terminal_absorbing_step (s : ConsumerState) (op : ConsumerOp)
    (h : s.isTerminal = true) : ((applyOp s op).2).isTerminal = true := by
  cases s <;> cases op <;> simp_all [ConsumerState.isTerminal, applyOp]

/-- Terminal lifecycle states are absorbing under any operation sequence. -/
theorem terminal_absorbing_run (s : ConsumerState) (ops : List ConsumerOp)
    (h : s.isTerminal = true) : (runConsumer s ops).isTerminal = true := by
  induction ops generalizing s with
  | nil => exact h
  | cons op rest ih => exact ih _ (terminal_absorbing_step s op h)

/-- Claim C3: once a consumer has reached a terminal state (Closed or
Unsubscribed) through any operation sequence, it stays terminal under any
further operations and every subsequent receive or acknowledge call fails
with the consumer-closed error rather than succeeding. -/
theorem C3_terminal_rejects_receive_ack (s : ConsumerState)
    (ops more : List ConsumerOp)
    (h : (runConsumer s ops).isTerminal = true) :
    (runConsumer (runConsumer s ops) more).isTerminal = true ∧
    (applyOp (runConsumer (runConsumer s ops) more)
        ConsumerOp.receiveOp).1 = Result.ResultConsumerClosed ∧
    (applyOp (runConsumer (runConsumer s ops) more)
        ConsumerOp.receiveOp).1 ≠ Result.ResultOk ∧
    (applyOp (runConsumer (runConsumer s ops) more)
        ConsumerOp.ackOp).1 = Result.ResultConsumerClosed ∧
    (applyOp (runConsumer (runConsumer s ops) more)
        ConsumerOp.ackOp).1 ≠ Result.ResultOk := by
  have h2 := terminal_absorbing_run (runConsumer s ops) more h
  refine ⟨h2, ?_, ?_, ?_, ?_⟩ <;>
    cases ht : runConsumer (runConsumer s ops) more <;>
      simp_all [ConsumerState.isTerminal, applyOp]

/-- Witness for C3: an active consumer that was closed rejects a receive and
an ack with the consumer-closed error. -/
theorem C3_terminal_rejects_receive_ack_witness :
    (runConsumer ConsumerState.active [ConsumerOp.closeOp]).isTerminal =
        true ∧
    (applyOp (runConsumer
        (runConsumer ConsumerState.active [ConsumerOp.closeOp])
        [ConsumerOp.receiveOp]) ConsumerOp.receiveOp).1 =
      Result.ResultConsumerClosed ∧
    (applyOp (runConsumer
        (runConsumer ConsumerState.active [ConsumerOp.closeOp])
        [ConsumerOp.receiveOp]) ConsumerOp.ackOp).1 =
      Result.ResultConsumerClosed :=
  ⟨by decide,
   (C3_terminal_rejects_receive_ack ConsumerState.active
      [ConsumerOp.closeOp] [ConsumerOp.receiveOp] (by decide)).2.1,
   (C3_terminal_rejects_receive_ack ConsumerState.active
      [ConsumerOp.closeOp] [ConsumerOp.receiveOp] (by decide)).2.2.2.1⟩

/-- Conservation invariant of a queue run: the messages handed out so far
followed by the ones still buffered are exactly the accepted pushes, in
order. -/
def QueueRun.conserved (r : QueueRun) : Prop :=
  r.handedOut ++ r.q.buffer = r.pushed

/-- One linearized queue event preserves the conservation invariant. -/
theorem step_conserves (r : QueueRun) (op : QueueOp)
    (h : r.conserved) : (r.step op).conserved := by
  unfold QueueRun.conserved at h ⊢
  cases op with
  | push m =>
      by_cases hcl : r.q.closed = true
      · simp [QueueRun.step, DeliveryQueue.push, hcl]
        exact h
      · by_cases hroom : r.q.buffer.length < r.q.capacity
        · simp [QueueRun.step, DeliveryQueue.push, hcl, hroom,
            ← List.append_assoc, h]
        · simp [QueueRun.step, DeliveryQueue.push, hcl, hroom]
          exact h
  | receive =>
      by_cases hcl : r.q.closed = true
      · simp [QueueRun.step, DeliveryQueue.receiveTimed, hcl]
        exact h
      · cases hb : r.q.buffer with
        | nil =>
            have h2 : r.handedOut = r.pushed := by simpa [hb] using h
            simp [QueueRun.step, DeliveryQueue.receiveTimed, hcl, hb, h2]
        | cons mm rest =>
            have h2 : r.handedOut ++ (mm :: rest) = r.pushed := by
              rw [← hb]
              exact h
            simp [QueueRun.step, DeliveryQueue.receiveTimed, hcl, hb,
              List.append_assoc]
            simpa using h2
  | pause => exact h
  | resume => exact h

/-- The conservation invariant holds along any run. -/
theorem run_conserves (ops : List QueueOp) (r : QueueRun)
    (h : r.conserved) : (ops.foldl QueueRun.step r).conserved := by
  induction ops generalizing r with
  | nil => exact h
  | cons op rest ih => exact ih _ (step_conserves r op h)

/-- Claim C7: over every linearized sequence of pushes and receives, the
messages handed out followed by those still buffered are exactly the
accepted pushes in order — so each pushed message is handed to at most one
receive call and none is lost, and once the buffer is drained every pushed
message was handed out exactly once. -/
theorem C7_each_push_received_once (cap : Nat) (ops : List QueueOp) :
    (runQueue cap ops).handedOut ++ (runQueue cap ops).q.buffer =
        (runQueue cap ops).pushed ∧
    (∀ m : Message,
        ((runQueue cap ops).handedOut.count m) +
            ((runQueue cap ops).q.buffer.count m) =
          (runQueue cap ops).pushed.count m) ∧
    ((runQueue cap ops).q.buffer = [] →
        (runQueue cap ops).handedOut = (runQueue cap ops).pushed) := by
  have hc : (runQueue cap ops).conserved := by
    unfold runQueue
    exact run_conserves ops (QueueRun.init cap) rfl
  unfold QueueRun.conserved at hc
  refine ⟨hc, ?_, ?_⟩
  · intro m
    rw [← hc, List.count_append]
  · intro hb
    rw [← hc, hb, List.append_nil]

/-- Two distinct sample messages. -/
def msgA : Message := { msgId := 1, payload := [10] }

/-- A second sample message. -/
def msgB : Message := { msgId := 2, payload := [20] }

/-- Witness for C7: pushing two messages and receiving twice drains the
buffer and hands out exactly the pushed messages, in order. -/
theorem C7_each_push_received_once_witness :
    (runQueue 2 [QueueOp.push msgA, QueueOp.push msgB, QueueOp.receive,
        QueueOp.receive]).q.buffer = [] ∧
    (runQueue 2 [QueueOp.push msgA, QueueOp.push msgB, QueueOp.receive,
        QueueOp.receive]).handedOut =
      (runQueue 2 [QueueOp.push msgA, QueueOp.push msgB, QueueOp.receive,
        QueueOp.receive]).pushed ∧
    (runQueue 2 [QueueOp.push msgA, QueueOp.push msgB, QueueOp.receive,
        QueueOp.receive]).handedOut = [msgA, msgB] :=
  ⟨by decide,
   (C7_each_push_received_once 2 [QueueOp.push msgA, QueueOp.push msgB,
      QueueOp.receive, QueueOp.receive]).2.2 (by decide),
   by decide⟩

/-- Capacity invariant of a queue run: the queue's configured capacity never
changes and the buffer never holds more than that many messages. -/
def QueueRun.bounded (r : QueueRun) (cap : Nat) : Prop :=
  r.q.capacity = cap ∧ r.q.buffer.length ≤ cap

/-- One linearized queue event preserves the capacity invariant. -/
theorem step_bounded (r : QueueRun) (op : QueueOp) (cap : Nat)
    (h : r.bounded cap) : (r.step op).bounded cap := by
  rcases h with ⟨hcap, hlen⟩
  unfold QueueRun.bounded
  cases op with
  | push m =>
      by_cases hcl : r.q.closed = true
      · simp [QueueRun.step, DeliveryQueue.push, hcl]
        exact ⟨hcap, hlen⟩
      · by_cases hroom : r.q.buffer.length < r.q.capacity
        · simp [QueueRun.step, DeliveryQueue.push, hcl, hroom]
          refine ⟨hcap, ?_⟩
          omega
        · simp [QueueRun.step, DeliveryQueue.push, hcl, hroom]
          exact ⟨hcap, hlen⟩
  | receive =>
      by_cases hcl : r.q.closed = true
      · simp [QueueRun.step, DeliveryQueue.receiveTimed, hcl]
        exact ⟨hcap, hlen⟩
      · cases hb : r.q.buffer with
        | nil =>
            simp [QueueRun.step, DeliveryQueue.receiveTimed, hcl, hb, hcap,
              hlen]
        | cons mm rest =>
            have hlen2 : rest.length + 1 ≤ cap := by
              have := hlen
              rw [hb] at this
              simpa using this
            simp [QueueRun.step, DeliveryQueue.receiveTimed, hcl, hb]
            refine ⟨hcap, ?_⟩
            omega
  | pause => exact ⟨hcap, hlen⟩
  | resume => exact ⟨hcap, hlen⟩

/-- The capacity invariant holds along any run. -/
theorem run_bounded (ops : List QueueOp) (r : QueueRun) (cap : Nat)
    (h : r.bounded cap) : (ops.foldl QueueRun.step r).bounded cap := by
  induction ops generalizing r with
  | nil => exact h
  | cons op rest ih => exact ih _ (step_bounded r op cap h)

/-- Claim C8: in every reachable state of a run the Delivery Queue holds no
more messages than its configured capacity, and an accepted push that fills
the buffer to capacity emits the backpressure signal to the transport. -/
theorem C8_capacity_never_exceeded (cap : Nat) (ops : List QueueOp) :
    (runQueue cap ops).q.buffer.length ≤ (runQueue cap ops).q.capacity ∧
    (runQueue cap ops).q.capacity = cap ∧
    (∀ q : DeliveryQueue, ∀ m : Message,
        (q.push m).1 = PushOutcome.accepted →
        (q.push m).2.1.buffer.length = (q.push m).2.1.capacity →
        (q.push m).2.2 = [Signal.backpressure]) := by
  have hb : (runQueue cap ops).bounded cap := by
    unfold runQueue
    exact run_bounded ops (QueueRun.init cap) cap ⟨rfl, by simp [QueueRun.init, DeliveryQueue.create]⟩
  rcases hb with ⟨hcap, hlen⟩
  refine ⟨by rw [hcap]; exact hlen, hcap, ?_⟩
  intro q m hacc hfull
  by_cases hcl : q.closed = true
  · simp [DeliveryQueue.push, hcl] at hacc
  · by_cases hroom : q.buffer.length < q.capacity
    · simp [DeliveryQueue.push, hcl, hroom] at hfull
      simp [DeliveryQueue.push, hcl, hroom, hfull]
    · simp [DeliveryQueue.push, hcl, hroom] at hacc

/-- Witness for C8: a run that pushes two messages into a capacity-1 queue
stays within capacity, and the accepted push that filled the queue emitted
backpressure. -/
theorem C8_capacity_never_exceeded_witness :
    (runQueue 1 [QueueOp.push msgA, QueueOp.push msgB]).q.buffer.length ≤
        (runQueue 1 [QueueOp.push msgA, QueueOp.push msgB]).q.capacity ∧
    ((DeliveryQueue.create 1).push msgA).2.2 = [Signal.backpressure] :=
  ⟨(C8_capacity_never_exceeded 1
      [QueueOp.push msgA, QueueOp.push msgB]).1,
   (C8_capacity_never_exceeded 1 []).2.2 (DeliveryQueue.create 1) msgA
      (by decide) (by decide)⟩
